import Mathlib

/-!
Verification development for the `solar_weather_impact` repository.

The subject is the synthetic weather / solar-efficiency simulator
(`generate_synthetic_dataset` in `src/train_model.py`), the training
pipeline (`train_model`), and the record-store insertion boundary
(`WeatherDatabase.insert_weather_data` in `src/data_ingestion.py`).

Modelling conventions:
* Python floats are modelled as real numbers (`ℝ`); `math.sin`, `math.pi`
  become `Real.sin`, `Real.pi`.
* Every call to `random.uniform` inside one hour's loop body is an explicit
  field of a `Draws` record; a run of the generator is parametrised by the
  function `draws : ℕ → ℕ → Draws` giving the draws consumed at
  (day index, hour).  `Draws.Valid` records the ranges of the uniform
  distributions actually used by the code.
* `datetime.now()` enters only through the `day_of_year` of each generated
  day; a run is therefore also parametrised by `dayOfYearOf : ℕ → ℕ`, the
  day-of-year of the day at index `day` (in the code:
  `(start_date + timedelta(days=day)).timetuple().tm_yday`).
* Python's `round(x, 2)` (round-half-to-even on the scaled value) is
  modelled by `round2` built on `pyRound`, an exact round-half-to-even on
  `ℝ`.
-/

open Real

noncomputable section

/-- The four `random.uniform` draws consumed by one hour of the generator
loop, in program order: `random.uniform(-2, 2)` for temperature,
`random.uniform(10, 70)` for the cloud base, `random.uniform(-10, 10)` for
humidity, `random.uniform(-2, 2)` for the efficiency noise. -/
structure Draws where
  tempNoise : ℝ
  cloudBase : ℝ
  humidNoise : ℝ
  effNoise : ℝ

/-- The ranges of the four uniform draws (`random.uniform(a, b)` returns a
value in `[a, b]`). -/
def Draws.Valid (d : Draws) : Prop :=
  -2 ≤ d.tempNoise ∧ d.tempNoise ≤ 2 ∧
  10 ≤ d.cloudBase ∧ d.cloudBase ≤ 70 ∧
  -10 ≤ d.humidNoise ∧ d.humidNoise ≤ 10 ∧
  -2 ≤ d.effNoise ∧ d.effNoise ≤ 2

/-- `temperature = base_temp + seasonal_variation + daily_variation
+ random.uniform(-2, 2)` with `base_temp = 25`,
`seasonal_variation = 5 * sin((day_of_year - 80) * 2 * pi / 365)`,
`daily_variation = 8 * sin((hour - 6) * pi / 12)`. -/
def temperature (day_of_year hour : ℕ) (d : Draws) : ℝ :=
  25 + 5 * Real.sin (((day_of_year : ℝ) - 80) * 2 * π / 365)
    + 8 * Real.sin (((hour : ℝ) - 6) * π / 12) + d.tempNoise

/-- `cloud_cover = max(0, min(100, cloud_base - (temperature - 25) * 0.3))`. -/
def cloud_cover (day_of_year hour : ℕ) (d : Draws) : ℝ :=
  max 0 (min 100 (d.cloudBase - (temperature day_of_year hour d - 25) * 0.3))

/-- `humidity = max(30, min(95, 40 + cloud_cover * 0.4 + random.uniform(-10, 10)))`,
as a function of the cloud cover value and the humidity noise draw. -/
def humidity_from (cc noise : ℝ) : ℝ :=
  max 30 (min 95 (40 + cc * 0.4 + noise))

/-- The humidity of one generated hour. -/
def humidity (day_of_year hour : ℕ) (d : Draws) : ℝ :=
  humidity_from (cloud_cover day_of_year hour d) d.humidNoise

/-- The temperature factor of step 3 of the efficiency computation:
`0.7 + (t - 15) * 0.02` below 15 °C, `1.0 - (t - 35) * 0.02` above 35 °C,
`0.9 + (25 - |t - 25|) * 0.004` otherwise. -/
def temp_factor (t : ℝ) : ℝ :=
  if t < 15 then 0.7 + (t - 15) * 0.02
  else if t > 35 then 1.0 - (t - 35) * 0.02
  else 0.9 + (25 - |t - 25|) * 0.004

/-- Steps 1 of the efficiency computation: the running value after the
hour-of-day branch, starting from `solar_efficiency = 100.0`: `0` when
`hour < 6 or hour > 18`, otherwise `100 * sin((hour - 6) * pi / 12)`. -/
def hour_base (hour : ℕ) : ℝ :=
  if hour < 6 ∨ hour > 18 then 0
  else 100 * Real.sin (((hour : ℝ) - 6) * π / 12)

/-- `seasonal_factor = 0.95 + 0.1 * sin((day_of_year - 80) * 2 * pi / 365)`. -/
def seasonal_factor (day_of_year : ℕ) : ℝ :=
  0.95 + 0.1 * Real.sin (((day_of_year : ℝ) - 80) * 2 * π / 365)

/-- The deterministic part of the efficiency: the running value after the
multiplicative steps 1–5 (hour branch, cloud penalty `(cloud_cover/100)*0.8`,
temperature factor, humidity penalty `(humidity-30)/100*0.15`, seasonal
factor), before the noise is added. -/
def raw_efficiency (day_of_year hour : ℕ) (t cc hum : ℝ) : ℝ :=
  hour_base hour * (1 - cc / 100 * 0.8) * temp_factor t
    * (1 - (hum - 30) / 100 * 0.15) * seasonal_factor day_of_year

/-- `solar_efficiency += random.uniform(-2, 2)` then
`solar_efficiency = max(0, min(100, solar_efficiency))`. -/
def eff_final (day_of_year hour : ℕ) (t cc hum noise : ℝ) : ℝ :=
  max 0 (min 100 (raw_efficiency day_of_year hour t cc hum + noise))

/-- The (unrounded) solar output efficiency of one generated hour. -/
def solar_output_efficiency (day_of_year hour : ℕ) (d : Draws) : ℝ :=
  eff_final day_of_year hour (temperature day_of_year hour d)
    (cloud_cover day_of_year hour d) (humidity day_of_year hour d) d.effNoise

/-- Round-half-to-even to an integer, the rounding Python's `round` uses. -/
def pyRound (x : ℝ) : ℤ :=
  if Int.fract x < 1 / 2 then ⌊x⌋
  else if 1 / 2 < Int.fract x then ⌊x⌋ + 1
  else if Even ⌊x⌋ then ⌊x⌋ else ⌊x⌋ + 1

/-- Python's `round(x, 2)`. -/
def round2 (x : ℝ) : ℝ := (pyRound (x * 100) : ℝ) / 100

/-- One row appended to `data`: all float fields rounded to 2 decimals. -/
structure TrainingRecord where
  temperature : ℝ
  cloud_cover : ℝ
  humidity : ℝ
  hour_of_day : ℕ
  day_of_year : ℕ
  solar_output_efficiency : ℝ

instance : Inhabited TrainingRecord := ⟨⟨0, 0, 0, 0, 0, 0⟩⟩

/-- The record the loop body appends for a given day-of-year, hour and draws. -/
def mkRecord (day_of_year hour : ℕ) (d : Draws) : TrainingRecord where
  temperature := round2 (temperature day_of_year hour d)
  cloud_cover := round2 (cloud_cover day_of_year hour d)
  humidity := round2 (humidity day_of_year hour d)
  hour_of_day := hour
  day_of_year := day_of_year
  solar_output_efficiency := round2 (solar_output_efficiency day_of_year hour d)

/-- `generate_synthetic_dataset(days)`: for each `day in range(days)` and
`hour in range(24)`, append one record.  `dayOfYearOf day` is the
`day_of_year` of `start_date + timedelta(days=day)` (wall-clock dependent),
`draws day hour` the uniform draws consumed in that iteration. -/
def generate_synthetic_dataset (days : ℕ) (dayOfYearOf : ℕ → ℕ)
    (draws : ℕ → ℕ → Draws) : List TrainingRecord :=
  (List.range days).flatMap fun day =>
    (List.range 24).map fun hour => mkRecord (dayOfYearOf day) hour (draws day hour)

/-- `generate_synthetic_dataset` on an arbitrary integer argument.  The
Python body has no raise and no exceptional path for `days < 0`:
`range(days)` is empty for any `days ≤ 0` and the function returns a normal
(empty) DataFrame, so the result is always `Except.ok`. -/
def generate_synthetic_dataset_checked (days : ℤ) (dayOfYearOf : ℕ → ℕ)
    (draws : ℕ → ℕ → Draws) : Except String (List TrainingRecord) :=
  Except.ok (generate_synthetic_dataset days.toNat dayOfYearOf draws)

/-! ### Training pipeline (`train_model`) -/

/-- The metrics dictionary returned by `train_model`. -/
structure Metrics where
  rmse : ℝ
  mae : ℝ
  r2 : ℝ

/-- `sklearn.metrics.mean_squared_error`. -/
def mean_squared_error (y yp : List ℝ) : ℝ :=
  ((y.zip yp).map fun p => (p.1 - p.2) ^ 2).sum / y.length

/-- `sklearn.metrics.mean_absolute_error`. -/
def mean_absolute_error (y yp : List ℝ) : ℝ :=
  ((y.zip yp).map fun p => |p.1 - p.2|).sum / y.length

/-- `sklearn.metrics.r2_score`. -/
def r2_score (y yp : List ℝ) : ℝ :=
  1 - ((y.zip yp).map fun p => (p.1 - p.2) ^ 2).sum /
    (y.map fun v => (v - y.sum / y.length) ^ 2).sum

/-- `ceil(0.2 * n)`, the number of test rows `train_test_split` takes for
`test_size=0.2` on `n` rows. -/
def test_count (n : ℕ) : ℕ := (n + 4) / 5

/-- The held-out test partition of `train_test_split(X, y, test_size=0.2,
random_state=42, shuffle=True)`.  The shuffle performed by the library's
RNG is modelled by the parameter `permOf`, where `permOf seed n` is the
permutation of `[0, n)` obtained from `random_state = seed`; the test set
is the first `ceil(0.2*n)` shuffled rows. -/
def test_set (records : List TrainingRecord) (permOf : ℕ → ℕ → List ℕ) :
    List TrainingRecord :=
  ((permOf 42 records.length).take (test_count records.length)).map
    fun i => records.getD i default

/-- The training partition: the shuffled rows not taken for the test set. -/
def train_set (records : List TrainingRecord) (permOf : ℕ → ℕ → List ℕ) :
    List TrainingRecord :=
  ((permOf 42 records.length).drop (test_count records.length)).map
    fun i => records.getD i default

/-- `train_model(df)`: 80/20 split with `random_state=42`, fit on the
training partition, evaluate RMSE/MAE/R² on the test partition.  The
XGBoost fit is external to the repository; it is modelled as the parameter
`fit`, mapping the training rows to a predictor. -/
def train_model (records : List TrainingRecord) (permOf : ℕ → ℕ → List ℕ)
    (fit : List TrainingRecord → TrainingRecord → ℝ) : Metrics :=
  let test := test_set records permOf
  let model := fit (train_set records permOf)
  let y := test.map (·.solar_output_efficiency)
  let yp := test.map model
  ⟨Real.sqrt (mean_squared_error y yp), mean_absolute_error y yp, r2_score y yp⟩

/-! ### Record store (`WeatherDatabase.insert_weather_data`) -/

/-- A weather record handed to the record store. -/
structure WeatherData where
  timestamp : String
  temperature : ℝ
  cloud_cover : ℝ
  humidity : ℝ
  city : String

/-- `WeatherDatabase.insert_weather_data`: the whole body (connect, INSERT,
commit, close) sits inside `try`; its outcome is modelled by the parameter
`write`.  `except Exception: ... return False` maps every failure to
`false`; the success path ends in `return True`.  The function itself
never raises: it is a total `Bool`-valued function. -/
def insert_weather_data (write : WeatherData → Except String Unit)
    (wd : WeatherData) : Bool :=
  match write wd with
  | Except.ok _ => true
  | Except.error _ => false

/-! ### Spec-side formula for the daylight efficiency (for the refinement
comparison of claim C3; written from the spec's wording, to be compared
with the source-derived definitions above). -/

/-- The spec's piecewise temperature factor: `0.7 + 0.02*(temperature-15)`
below 15 °C; `1.0 - 0.02*(temperature-35)` above 35 °C; otherwise
`0.9 + 0.004*(25 - |temperature-25|)`. -/
def spec_temp_factor (t : ℝ) : ℝ :=
  if t < 15 then 0.7 + 0.02 * (t - 15)
  else if t > 35 then 1.0 - 0.02 * (t - 35)
  else 0.9 + 0.004 * (25 - |t - 25|)

/-- The spec's daylight-hour efficiency: 100 times `sin(pi*(hour-6)/12)`,
times `(1 - 0.8*cloud_cover/100)`, times the temperature factor, times
`(1 - 0.15*(humidity-30)/100)`, times `(0.95 + 0.1*sin(2*pi*(day_of_year-80)/365))`;
then the noise is added and the result clamped to `[0,100]`, in that
order. -/
def spec_daylight_efficiency (day_of_year hour : ℕ) (t cc hum noise : ℝ) : ℝ :=
  max 0 (min 100
    (100 * Real.sin (π * ((hour : ℝ) - 6) / 12) * (1 - 0.8 * cc / 100)
      * spec_temp_factor t * (1 - 0.15 * (hum - 30) / 100)
      * (0.95 + 0.1 * Real.sin (2 * π * ((day_of_year : ℝ) - 80) / 365)) + noise))

/-! ### Concrete inputs used by witnesses and counterexamples -/

/-- A draw vector inside all the uniform ranges, with efficiency noise 0. -/
def d0 : Draws := ⟨0, 40, 0, 0⟩

/-- A draw vector inside all the uniform ranges, with efficiency noise 1. -/
def d1 : Draws := ⟨0, 40, 0, 1⟩

/-- A draw vector inside all the uniform ranges, with efficiency noise -1. -/
def dW : Draws := ⟨1, 20, 5, -1⟩

/-- A constant day-of-year function (every generated day has day-of-year 1). -/
def constDOY : ℕ → ℕ := fun _ => 1

/-- A constant draw stream. -/
def constDraws : ℕ → ℕ → Draws := fun _ _ => d0

/-- Five concrete records, for the training-pipeline witness. -/
def sampleRecords : List TrainingRecord :=
  (List.range 5).map fun h => mkRecord 1 h d0

/-! ### Helper lemmas about the rounding -/

lemma floor_le_pyRound (x : ℝ) : ⌊x⌋ ≤ pyRound x := by
  unfold pyRound
  split_ifs <;> omega

lemma le_pyRound_of_le (B : ℤ) {x : ℝ} (h : (B : ℝ) ≤ x) : B ≤ pyRound x :=
  le_trans (Int.le_floor.mpr h) (floor_le_pyRound x)

lemma pyRound_le_of_le (B : ℤ) {x : ℝ} (h : x ≤ (B : ℝ)) : pyRound x ≤ B := by
  have hfl : ⌊x⌋ ≤ B := by
    have h2 := Int.floor_le_floor h
    rwa [Int.floor_intCast] at h2
  by_cases heq : ⌊x⌋ = B
  · have hfr : Int.fract x = 0 := by
      have h1 : 0 ≤ Int.fract x := Int.fract_nonneg x
      have h2 : Int.fract x ≤ 0 := by
        rw [← Int.self_sub_floor, heq]
        linarith
      linarith
    unfold pyRound
    rw [hfr]
    norm_num
    exact hfl
  · have hlt : ⌊x⌋ < B := lt_of_le_of_ne hfl heq
    unfold pyRound
    split_ifs <;> omega

lemma pyRound_intCast (m : ℤ) : pyRound (m : ℝ) = m := by
  unfold pyRound
  rw [Int.fract_intCast, Int.floor_intCast]
  norm_num

lemma round2_le_of_le (n : ℤ) {x : ℝ} (h : x ≤ (n : ℝ)) : round2 x ≤ (n : ℝ) := by
  unfold round2
  have h1 : x * 100 ≤ ((100 * n : ℤ) : ℝ) := by push_cast; linarith
  have h2 : pyRound (x * 100) ≤ 100 * n := pyRound_le_of_le (100 * n) h1
  have h3 : (pyRound (x * 100) : ℝ) ≤ ((100 * n : ℤ) : ℝ) := by exact_mod_cast h2
  push_cast at h3
  linarith

lemma le_round2_of_le (n : ℤ) {x : ℝ} (h : (n : ℝ) ≤ x) : (n : ℝ) ≤ round2 x := by
  unfold round2
  have h1 : ((100 * n : ℤ) : ℝ) ≤ x * 100 := by push_cast; linarith
  have h2 : 100 * n ≤ pyRound (x * 100) := le_pyRound_of_le (100 * n) h1
  have h3 : ((100 * n : ℤ) : ℝ) ≤ (pyRound (x * 100) : ℝ) := by exact_mod_cast h2
  push_cast at h3
  linarith

lemma round2_nonneg {x : ℝ} (h : 0 ≤ x) : 0 ≤ round2 x := by
  have h2 := le_round2_of_le 0 (by exact_mod_cast h : ((0 : ℤ) : ℝ) ≤ x)
  exact_mod_cast h2

lemma round2_le_100 {x : ℝ} (h : x ≤ 100) : round2 x ≤ 100 := by
  have h2 := round2_le_of_le 100 (by exact_mod_cast h : x ≤ ((100 : ℤ) : ℝ))
  exact_mod_cast h2

lemma round2_intCast (m : ℤ) : round2 (m : ℝ) = m := by
  unfold round2
  have h1 : (m : ℝ) * 100 = ((m * 100 : ℤ) : ℝ) := by push_cast; ring
  rw [h1, pyRound_intCast]
  push_cast
  ring

/-! ### Helper lemmas about the clamps and ranges -/

lemma clamp_lower (lo hi z : ℝ) : lo ≤ max lo (min hi z) := le_max_left lo _

lemma clamp_upper {lo hi : ℝ} (h : lo ≤ hi) (z : ℝ) : max lo (min hi z) ≤ hi :=
  max_le h (min_le_left hi z)

lemma humidity_mem (day_of_year hour : ℕ) (d : Draws) :
    30 ≤ humidity day_of_year hour d ∧ humidity day_of_year hour d ≤ 95 := by
  unfold humidity humidity_from
  exact ⟨clamp_lower 30 95 _, clamp_upper (by norm_num) _⟩

lemma cloud_cover_mem (day_of_year hour : ℕ) (d : Draws) :
    0 ≤ cloud_cover day_of_year hour d ∧ cloud_cover day_of_year hour d ≤ 100 := by
  unfold cloud_cover
  exact ⟨clamp_lower 0 100 _, clamp_upper (by norm_num) _⟩

lemma eff_final_mem (day_of_year hour : ℕ) (t cc hum noise : ℝ) :
    0 ≤ eff_final day_of_year hour t cc hum noise ∧
    eff_final day_of_year hour t cc hum noise ≤ 100 := by
  unfold eff_final
  exact ⟨clamp_lower 0 100 _, clamp_upper (by norm_num) _⟩

lemma solar_output_efficiency_mem (day_of_year hour : ℕ) (d : Draws) :
    0 ≤ solar_output_efficiency day_of_year hour d ∧
    solar_output_efficiency day_of_year hour d ≤ 100 := by
  unfold solar_output_efficiency
  exact eff_final_mem _ _ _ _ _ _

lemma temperature_mem {d : Draws} (hv : d.Valid) (day_of_year hour : ℕ) :
    10 ≤ temperature day_of_year hour d ∧ temperature day_of_year hour d ≤ 40 := by
  obtain ⟨h1, h2, -, -, -, -, -, -⟩ := hv
  unfold temperature
  have s1l := Real.neg_one_le_sin (((day_of_year : ℝ) - 80) * 2 * π / 365)
  have s1u := Real.sin_le_one (((day_of_year : ℝ) - 80) * 2 * π / 365)
  have s2l := Real.neg_one_le_sin (((hour : ℝ) - 6) * π / 12)
  have s2u := Real.sin_le_one (((hour : ℝ) - 6) * π / 12)
  constructor <;> linarith

lemma hour_base_eq_zero {h : ℕ} (hh : h ≤ 6 ∨ 18 ≤ h) : hour_base h = 0 := by
  unfold hour_base
  rcases Nat.lt_or_ge h 6 with h6 | h6
  · rw [if_pos (Or.inl h6)]
  rcases Nat.lt_or_ge 18 h with h18 | h18
  · rw [if_pos (Or.inr h18)]
  have hcase : h = 6 ∨ h = 18 := by omega
  rcases hcase with rfl | rfl
  · rw [if_neg (by omega)]
    norm_num [Real.sin_zero]
  · rw [if_neg (by omega)]
    have e1 : ((18 : ℕ) : ℝ) - 6 = 12 := by norm_num
    rw [e1]
    have e2 : (12 : ℝ) * π / 12 = π := by ring
    rw [e2, Real.sin_pi, mul_zero]

lemma hour_base_nonneg (h : ℕ) : 0 ≤ hour_base h := by
  unfold hour_base
  split_ifs with hcond
  · exact le_refl 0
  · push_neg at hcond
    obtain ⟨h6, h18⟩ := hcond
    have hc6 : (6 : ℝ) ≤ (h : ℝ) := by exact_mod_cast h6
    have hc18 : (h : ℝ) ≤ 18 := by exact_mod_cast h18
    have hx0 : (0 : ℝ) ≤ ((h : ℝ) - 6) * π / 12 :=
      div_nonneg (mul_nonneg (by linarith) (le_of_lt Real.pi_pos)) (by norm_num)
    have hxπ : ((h : ℝ) - 6) * π / 12 ≤ π := by
      rw [div_le_iff₀ (by norm_num : (0:ℝ) < 12)]
      nlinarith [Real.pi_pos]
    have hs := Real.sin_nonneg_of_nonneg_of_le_pi hx0 hxπ
    linarith

lemma temp_factor_nonneg {t : ℝ} (h1 : 10 ≤ t) (h2 : t ≤ 40) : 0 ≤ temp_factor t := by
  unfold temp_factor
  split_ifs with a b
  · linarith
  · linarith
  · have habs : |t - 25| ≤ 25 := by
      rw [abs_le]
      constructor <;> linarith
    have h0 := abs_nonneg (t - 25)
    linarith

lemma seasonal_factor_mem (doy : ℕ) :
    0.85 ≤ seasonal_factor doy ∧ seasonal_factor doy ≤ 1.05 := by
  unfold seasonal_factor
  have l := Real.neg_one_le_sin (((doy : ℝ) - 80) * 2 * π / 365)
  have u := Real.sin_le_one (((doy : ℝ) - 80) * 2 * π / 365)
  constructor <;> linarith

lemma raw_efficiency_night {doy h : ℕ} (hh : h ≤ 6 ∨ 18 ≤ h) (t cc hum : ℝ) :
    raw_efficiency doy h t cc hum = 0 := by
  unfold raw_efficiency
  rw [hour_base_eq_zero hh]
  ring

lemma solar_output_efficiency_night {doy h : ℕ} {d : Draws}
    (hh : h ≤ 6 ∨ 18 ≤ h) (hnu : d.effNoise ≤ 2) :
    solar_output_efficiency doy h d = max 0 d.effNoise := by
  unfold solar_output_efficiency eff_final
  rw [raw_efficiency_night hh, zero_add]
  congr 1
  exact min_eq_right (by linarith)

lemma generate_one (c : ℕ → ℕ) (g : ℕ → ℕ → Draws) :
    generate_synthetic_dataset 1 c g =
      (List.range 24).map fun hour => mkRecord (c 0) hour (g 0 hour) := by
  unfold generate_synthetic_dataset
  simp [List.range_succ]

lemma mem_generate {days : ℕ} {c : ℕ → ℕ} {g : ℕ → ℕ → Draws} {r : TrainingRecord}
    (hr : r ∈ generate_synthetic_dataset days c g) :
    ∃ day hour, day < days ∧ hour < 24 ∧ r = mkRecord (c day) hour (g day hour) := by
  unfold generate_synthetic_dataset at hr
  rw [List.mem_flatMap] at hr
  obtain ⟨day, hday, hr⟩ := hr
  rw [List.mem_map] at hr
  obtain ⟨hour, hhour, rfl⟩ := hr
  exact ⟨day, hour, List.mem_range.mp hday, List.mem_range.mp hhour, rfl⟩

/-! ## Claim theorems -/

/-- C2: every record produced by `generate_synthetic_dataset`, for any
number of days and any random draws, satisfies `0 ≤ cloud_cover ≤ 100`,
`0 ≤ humidity ≤ 100` and `0 ≤ solar_output_efficiency ≤ 100`, all after
the 2-decimal rounding. -/
theorem C2_generated_record_bounds (days : ℕ) (c : ℕ → ℕ) (g : ℕ → ℕ → Draws)
    (r : TrainingRecord) (hr : r ∈ generate_synthetic_dataset days c g) :
    0 ≤ r.cloud_cover ∧ r.cloud_cover ≤ 100 ∧
    0 ≤ r.humidity ∧ r.humidity ≤ 100 ∧
    0 ≤ r.solar_output_efficiency ∧ r.solar_output_efficiency ≤ 100 := by
  obtain ⟨day, hour, -, -, rfl⟩ := mem_generate hr
  have hcc := cloud_cover_mem (c day) hour (g day hour)
  have hhum := humidity_mem (c day) hour (g day hour)
  have heff := solar_output_efficiency_mem (c day) hour (g day hour)
  simp only [mkRecord]
  refine ⟨round2_nonneg hcc.1, round2_le_100 hcc.2,
          round2_nonneg (le_trans (by norm_num) hhum.1),
          round2_le_100 (le_trans hhum.2 (by norm_num)),
          round2_nonneg heff.1, round2_le_100 heff.2⟩

theorem C2_witness :
    mkRecord 1 0 d0 ∈ generate_synthetic_dataset 1 constDOY constDraws ∧
    (0 ≤ (mkRecord 1 0 d0).cloud_cover ∧ (mkRecord 1 0 d0).cloud_cover ≤ 100 ∧
     0 ≤ (mkRecord 1 0 d0).humidity ∧ (mkRecord 1 0 d0).humidity ≤ 100 ∧
     0 ≤ (mkRecord 1 0 d0).solar_output_efficiency ∧
     (mkRecord 1 0 d0).solar_output_efficiency ≤ 100) := by
  have hm : mkRecord 1 0 d0 ∈ generate_synthetic_dataset 1 constDOY constDraws := by
    rw [generate_one]
    exact List.mem_map.mpr ⟨0, List.mem_range.mpr (by norm_num), rfl⟩
  exact ⟨hm, C2_generated_record_bounds 1 constDOY constDraws _ hm⟩

/-- C5: `generate_synthetic_dataset(days)` yields exactly `days * 24`
records for every `days ≥ 0` (so `days = 0` yields the empty sequence),
and for `days = 1` the 24 records carry pairwise distinct `hour_of_day`
values covering `0..23`. -/
theorem C5_record_count_and_hours (days : ℕ) (c : ℕ → ℕ) (g : ℕ → ℕ → Draws) :
    (generate_synthetic_dataset days c g).length = days * 24 ∧
    generate_synthetic_dataset 0 c g = [] ∧
    (generate_synthetic_dataset 1 c g).map (·.hour_of_day) = List.range 24 ∧
    ((generate_synthetic_dataset 1 c g).map (·.hour_of_day)).Nodup := by
  have hmap : (generate_synthetic_dataset 1 c g).map (·.hour_of_day) = List.range 24 := by
    rw [generate_one, List.map_map]
    simp [mkRecord, Function.comp_def]
  refine ⟨?_, ?_, hmap, ?_⟩
  · unfold generate_synthetic_dataset
    rw [List.length_flatMap]
    simp [Function.comp_def, List.map_const', List.sum_replicate, smul_eq_mul]
  · rfl
  · rw [hmap]
    exact List.nodup_range 24

/-- C1 (counterexample): the record generated at hour 20 of a 1-day run
with valid draws whose efficiency-noise draw is `1` has
`hour_of_day > 18` but `solar_output_efficiency = 1 ≠ 0`: the noise
`random.uniform(-2, 2)` is added after the night zeroing and the final
clamp only cuts off below 0. -/
theorem C1_counterexample :
    mkRecord 1 20 d1 ∈ generate_synthetic_dataset 1 constDOY (fun _ _ => d1) ∧
    d1.Valid ∧
    18 < (mkRecord 1 20 d1).hour_of_day ∧
    (mkRecord 1 20 d1).solar_output_efficiency ≠ 0 := by
  refine ⟨?_, ?_, ?_, ?_⟩
  · rw [generate_one]
    exact List.mem_map.mpr ⟨20, List.mem_range.mpr (by norm_num), rfl⟩
  · refine ⟨by norm_num [d1], by norm_num [d1], by norm_num [d1], by norm_num [d1],
      by norm_num [d1], by norm_num [d1], by norm_num [d1], by norm_num [d1]⟩
  · show (18 : ℕ) < 20
    norm_num
  · have h1 : (mkRecord 1 20 d1).solar_output_efficiency = round2 1 := by
      show round2 (solar_output_efficiency 1 20 d1) = round2 1
      rw [solar_output_efficiency_night (Or.inr (by norm_num))
        (by norm_num [d1] : d1.effNoise ≤ 2)]
      rw [show d1.effNoise = 1 from rfl]
      rw [max_eq_right (by norm_num : (0:ℝ) ≤ 1)]
    have h2 : round2 (1 : ℝ) = 1 := by
      have h3 := round2_intCast 1
      simpa using h3
    rw [h1, h2]
    norm_num

/-- C1 (amended): for every record with `hour_of_day < 6` or
`hour_of_day > 18` and draws in the uniform ranges, the solar output
efficiency is the rounded value of the noise clamped below at 0: it lies
in `[0, 2]` and need not be 0. -/
theorem C1_amended_night_efficiency (doy h : ℕ) (d : Draws) (hv : d.Valid)
    (hh : h < 6 ∨ 18 < h) :
    (mkRecord doy h d).solar_output_efficiency = round2 (max 0 d.effNoise) ∧
    0 ≤ (mkRecord doy h d).solar_output_efficiency ∧
    (mkRecord doy h d).solar_output_efficiency ≤ 2 := by
  obtain ⟨-, -, -, -, -, -, hn1, hn2⟩ := hv
  have hh2 : h ≤ 6 ∨ 18 ≤ h := by omega
  have hfield : (mkRecord doy h d).solar_output_efficiency
      = round2 (max 0 d.effNoise) := by
    show round2 (solar_output_efficiency doy h d) = _
    rw [solar_output_efficiency_night hh2 hn2]
  refine ⟨hfield, ?_, ?_⟩
  · rw [hfield]
    exact round2_nonneg (le_max_left 0 _)
  · rw [hfield]
    have hle : max 0 d.effNoise ≤ ((2 : ℤ) : ℝ) := by
      push_cast
      exact max_le (by norm_num) hn2
    have h2 := round2_le_of_le 2 hle
    exact_mod_cast h2

theorem C1_amended_witness :
    dW.Valid ∧ ((5 : ℕ) < 6 ∨ 18 < (5 : ℕ)) ∧
    ((mkRecord 3 5 dW).solar_output_efficiency = round2 (max 0 dW.effNoise) ∧
     0 ≤ (mkRecord 3 5 dW).solar_output_efficiency ∧
     (mkRecord 3 5 dW).solar_output_efficiency ≤ 2) := by
  have hv : dW.Valid :=
    ⟨by norm_num [dW], by norm_num [dW], by norm_num [dW], by norm_num [dW],
     by norm_num [dW], by norm_num [dW], by norm_num [dW], by norm_num [dW]⟩
  exact ⟨hv, Or.inl (by norm_num),
    C1_amended_night_efficiency 3 5 dW hv (Or.inl (by norm_num))⟩

/-- C10: for every generated record with `hour_of_day` outside `7..17`
(night hours and the daylight boundary hours 6 and 18, where the
daylight-angle factor is `sin 0 = 0` resp. `sin π = 0`), the deterministic
part of the efficiency is 0; the unrounded efficiency is exactly the
uniform noise clamped below at 0, and the stored (rounded) efficiency lies
in `[0, 2]`. -/
theorem C10_boundary_night_efficiency (doy h : ℕ) (d : Draws) (hv : d.Valid)
    (hh : h ≤ 6 ∨ 18 ≤ h) :
    raw_efficiency doy h (temperature doy h d) (cloud_cover doy h d)
      (humidity doy h d) = 0 ∧
    solar_output_efficiency doy h d = max 0 d.effNoise ∧
    0 ≤ solar_output_efficiency doy h d ∧ solar_output_efficiency doy h d ≤ 2 ∧
    0 ≤ (mkRecord doy h d).solar_output_efficiency ∧
    (mkRecord doy h d).solar_output_efficiency ≤ 2 := by
  obtain ⟨-, -, -, -, -, -, hn1, hn2⟩ := hv
  have hraw : raw_efficiency doy h (temperature doy h d) (cloud_cover doy h d)
      (humidity doy h d) = 0 :=
    raw_efficiency_night hh _ _ _
  have heq : solar_output_efficiency doy h d = max 0 d.effNoise :=
    solar_output_efficiency_night hh hn2
  have hlo : 0 ≤ solar_output_efficiency doy h d := by
    rw [heq]; exact le_max_left 0 _
  have hhi : solar_output_efficiency doy h d ≤ 2 := by
    rw [heq]; exact max_le (by norm_num) hn2
  have hfield : (mkRecord doy h d).solar_output_efficiency
      = round2 (solar_output_efficiency doy h d) := rfl
  refine ⟨hraw, heq, hlo, hhi, ?_, ?_⟩
  · rw [hfield]
    exact round2_nonneg hlo
  · rw [hfield]
    have h2 := round2_le_of_le 2 (by exact_mod_cast hhi :
      solar_output_efficiency doy h d ≤ ((2 : ℤ) : ℝ))
    exact_mod_cast h2

theorem C10_witness :
    d0.Valid ∧ ((6 : ℕ) ≤ 6 ∨ 18 ≤ (6 : ℕ)) ∧
    (raw_efficiency 1 6 (temperature 1 6 d0) (cloud_cover 1 6 d0)
       (humidity 1 6 d0) = 0 ∧
     solar_output_efficiency 1 6 d0 = max 0 d0.effNoise ∧
     0 ≤ solar_output_efficiency 1 6 d0 ∧ solar_output_efficiency 1 6 d0 ≤ 2 ∧
     0 ≤ (mkRecord 1 6 d0).solar_output_efficiency ∧
     (mkRecord 1 6 d0).solar_output_efficiency ≤ 2) := by
  have hv : d0.Valid :=
    ⟨by norm_num [d0], by norm_num [d0], by norm_num [d0], by norm_num [d0],
     by norm_num [d0], by norm_num [d0], by norm_num [d0], by norm_num [d0]⟩
  exact ⟨hv, Or.inl (by norm_num),
    C10_boundary_night_efficiency 1 6 d0 hv (Or.inl (by norm_num))⟩

/-- The spec's temperature factor coincides with the source's. -/
lemma spec_temp_factor_eq (t : ℝ) : spec_temp_factor t = temp_factor t := by
  unfold spec_temp_factor temp_factor
  split_ifs <;> ring

/-- C3: for every generated record with `6 ≤ hour_of_day ≤ 18`, the
solar output efficiency equals the spec's product formula — 100 times the
daylight-angle factor, the cloud factor, the piecewise temperature factor,
the humidity factor and the seasonal factor — with the `uniform(-2,2)`
noise added and the clamp to `[0,100]` applied afterwards, in that order,
evaluated at the record's own temperature, cloud cover and humidity. -/
theorem C3_daylight_formula (doy h : ℕ) (d : Draws) (h6 : 6 ≤ h) (h18 : h ≤ 18) :
    solar_output_efficiency doy h d =
      spec_daylight_efficiency doy h (temperature doy h d) (cloud_cover doy h d)
        (humidity doy h d) d.effNoise := by
  have hmain : raw_efficiency doy h (temperature doy h d) (cloud_cover doy h d)
      (humidity doy h d) =
      100 * Real.sin (π * ((h : ℝ) - 6) / 12)
        * (1 - 0.8 * cloud_cover doy h d / 100)
        * spec_temp_factor (temperature doy h d)
        * (1 - 0.15 * (humidity doy h d - 30) / 100)
        * (0.95 + 0.1 * Real.sin (2 * π * ((doy : ℝ) - 80) / 365)) := by
    have hargh : π * ((h : ℝ) - 6) / 12 = ((h : ℝ) - 6) * π / 12 := by ring
    have hargd : 2 * π * ((doy : ℝ) - 80) / 365 = ((doy : ℝ) - 80) * 2 * π / 365 := by
      ring
    rw [hargh, hargd, spec_temp_factor_eq]
    unfold raw_efficiency hour_base seasonal_factor
    rw [if_neg (by omega)]
    ring
  unfold solar_output_efficiency eff_final spec_daylight_efficiency
  rw [hmain]

theorem C3_witness :
    (6 : ℕ) ≤ 12 ∧ (12 : ℕ) ≤ 18 ∧
    solar_output_efficiency 1 12 d0 =
      spec_daylight_efficiency 1 12 (temperature 1 12 d0) (cloud_cover 1 12 d0)
        (humidity 1 12 d0) d0.effNoise :=
  ⟨by norm_num, by norm_num, C3_daylight_formula 1 12 d0 (by norm_num) (by norm_num)⟩

/-- C4: holding temperature, humidity, hour, day-of-year and all draws
fixed at values the generator produces, the efficiency is monotonically
non-increasing in the cloud cover: for `0 ≤ c1 ≤ c2 ≤ 100` the efficiency
at `c2` is at most the efficiency at `c1`. -/
theorem C4_cloud_cover_antitone (doy h : ℕ) (d : Draws) (hv : d.Valid)
    (c1 c2 : ℝ) (_hc0 : 0 ≤ c1) (hc12 : c1 ≤ c2) (_hc2 : c2 ≤ 100) :
    eff_final doy h (temperature doy h d) c2 (humidity doy h d) d.effNoise ≤
    eff_final doy h (temperature doy h d) c1 (humidity doy h d) d.effNoise := by
  have ht := temperature_mem hv doy h
  have htf := temp_factor_nonneg ht.1 ht.2
  have hhum := humidity_mem doy h d
  have hhf : 0 ≤ 1 - (humidity doy h d - 30) / 100 * 0.15 := by
    obtain ⟨a, b⟩ := hhum
    linarith
  have hsf := (seasonal_factor_mem doy).1
  have hhb := hour_base_nonneg h
  have hK : 0 ≤ hour_base h * temp_factor (temperature doy h d)
      * (1 - (humidity doy h d - 30) / 100 * 0.15) * seasonal_factor doy :=
    mul_nonneg (mul_nonneg (mul_nonneg hhb htf) hhf) (by linarith)
  have hraw : ∀ c : ℝ,
      raw_efficiency doy h (temperature doy h d) c (humidity doy h d)
        = (1 - c / 100 * 0.8) *
          (hour_base h * temp_factor (temperature doy h d)
            * (1 - (humidity doy h d - 30) / 100 * 0.15) * seasonal_factor doy) := by
    intro c
    unfold raw_efficiency
    ring
  have hmono : raw_efficiency doy h (temperature doy h d) c2 (humidity doy h d)
      ≤ raw_efficiency doy h (temperature doy h d) c1 (humidity doy h d) := by
    rw [hraw c1, hraw c2]
    exact mul_le_mul_of_nonneg_right (by linarith) hK
  unfold eff_final
  exact max_le_max (le_refl 0) (min_le_min (le_refl 100) (by linarith))

theorem C4_witness :
    d0.Valid ∧ (0 : ℝ) ≤ 10 ∧ (10 : ℝ) ≤ 50 ∧ (50 : ℝ) ≤ 100 ∧
    eff_final 1 12 (temperature 1 12 d0) 50 (humidity 1 12 d0) d0.effNoise ≤
    eff_final 1 12 (temperature 1 12 d0) 10 (humidity 1 12 d0) d0.effNoise := by
  have hv : d0.Valid :=
    ⟨by norm_num [d0], by norm_num [d0], by norm_num [d0], by norm_num [d0],
     by norm_num [d0], by norm_num [d0], by norm_num [d0], by norm_num [d0]⟩
  exact ⟨hv, by norm_num, by norm_num, by norm_num,
    C4_cloud_cover_antitone 1 12 d0 hv 10 50 (by norm_num) (by norm_num) (by norm_num)⟩

/-- C6 (counterexample): fixing the random draws (the seed) does not by
itself make two runs identical: the `day_of_year` values come from
`datetime.now()`, not from the random generator, so two runs with the same
draw stream but started on different wall-clock dates (here day-of-year 1
versus day-of-year 2) produce different outputs. -/
theorem C6_counterexample :
    generate_synthetic_dataset 1 (fun _ => 1) constDraws ≠
    generate_synthetic_dataset 1 (fun _ => 2) constDraws := by
  intro hEq
  have h2 := congrArg (fun l => l.map (·.day_of_year)) hEq
  simp only [generate_one, List.map_map] at h2
  have h3 := congrArg (fun l => l.getD 0 7) h2
  simp [mkRecord, List.getD] at h3

/-- C6 (amended): two calls of `generate_synthetic_dataset(days)` yield
identical output sequences provided both the random draw streams and the
start date (the day-of-year values, which come from the wall clock) agree
on every iteration the loop actually consumes. -/
theorem C6_amended_determinism (days : ℕ) (c1 c2 : ℕ → ℕ) (g1 g2 : ℕ → ℕ → Draws)
    (hc : ∀ day, day < days → c1 day = c2 day)
    (hg : ∀ day, day < days → ∀ hour, hour < 24 → g1 day hour = g2 day hour) :
    generate_synthetic_dataset days c1 g1 = generate_synthetic_dataset days c2 g2 := by
  unfold generate_synthetic_dataset
  apply List.flatMap_congr
  intro day hday
  have hday2 := List.mem_range.mp hday
  apply List.map_congr_left
  intro hour hhour
  rw [hc day hday2, hg day hday2 hour (List.mem_range.mp hhour)]

theorem C6_amended_witness :
    (∀ day, day < 1 → constDOY day = (fun d => if d = 0 then 1 else 999) day) ∧
    (∀ day, day < 1 → ∀ hour, hour < 24 →
      constDraws day hour = (fun _ h => if h < 24 then d0 else dW) day hour) ∧
    generate_synthetic_dataset 1 constDOY constDraws =
      generate_synthetic_dataset 1 (fun d => if d = 0 then 1 else 999)
        (fun _ h => if h < 24 then d0 else dW) := by
  have hc : ∀ day, day < 1 → constDOY day = (fun d => if d = 0 then 1 else 999) day := by
    intro day hday
    have hd : day = 0 := by omega
    subst hd
    rfl
  have hg : ∀ day, day < 1 → ∀ hour, hour < 24 →
      constDraws day hour = (fun _ h => if h < 24 then d0 else dW) day hour := by
    intro day hday hour hhour
    show d0 = if hour < 24 then d0 else dW
    rw [if_pos hhour]
  exact ⟨hc, hg, C6_amended_determinism 1 constDOY _ constDraws _ hc hg⟩

/-- C7 (counterexample): `generate_synthetic_dataset(-1)` is not rejected:
`for day in range(-1)` iterates zero times and the function returns a
normal, empty dataset — a result, not an error. -/
theorem C7_counterexample :
    generate_synthetic_dataset_checked (-1) constDOY constDraws = Except.ok [] := by
  rfl

/-- C7 (amended): for every `days < 0` the call is accepted and silently
behaves like `days = 0`: it returns an empty dataset and raises no error. -/
theorem C7_amended_negative_days (days : ℤ) (hneg : days < 0)
    (c : ℕ → ℕ) (g : ℕ → ℕ → Draws) :
    generate_synthetic_dataset_checked days c g = Except.ok [] := by
  unfold generate_synthetic_dataset_checked generate_synthetic_dataset
  rw [Int.toNat_of_nonpos (le_of_lt hneg)]
  rfl

theorem C7_amended_witness :
    (-5 : ℤ) < 0 ∧
    generate_synthetic_dataset_checked (-5) constDOY constDraws = Except.ok [] :=
  ⟨by norm_num, C7_amended_negative_days (-5) (by norm_num) constDOY constDraws⟩

lemma test_count_le (n : ℕ) : test_count n ≤ n := by
  unfold test_count
  omega

lemma map_getD_range (l : List TrainingRecord) :
    (List.range l.length).map (fun i => l.getD i default) = l := by
  apply List.ext_getElem
  · simp
  · intro i h1 h2
    simp only [List.getElem_map, List.getElem_range]
    exact List.getD_eq_getElem l default h2

/-- C8: `train_model` splits the records 80/20 — the held-out test
partition has `ceil(0.2*n)` rows, the training partition the remaining
rows, and together they are a permutation of the input — using the shuffle
obtained from the fixed split seed 42 (so the split is reproducible), and
its RMSE, MAE and R² are computed on the held-out test partition only. -/
theorem C8_split_and_metrics (records : List TrainingRecord)
    (permOf : ℕ → ℕ → List ℕ) (fit : List TrainingRecord → TrainingRecord → ℝ)
    (hperm : (permOf 42 records.length).Perm (List.range records.length)) :
    (test_set records permOf).length = test_count records.length ∧
    (train_set records permOf).length
      = records.length - test_count records.length ∧
    (test_set records permOf ++ train_set records permOf).Perm records ∧
    train_model records permOf fit =
      ⟨Real.sqrt (mean_squared_error
          ((test_set records permOf).map (·.solar_output_efficiency))
          ((test_set records permOf).map (fit (train_set records permOf)))),
        mean_absolute_error
          ((test_set records permOf).map (·.solar_output_efficiency))
          ((test_set records permOf).map (fit (train_set records permOf))),
        r2_score
          ((test_set records permOf).map (·.solar_output_efficiency))
          ((test_set records permOf).map (fit (train_set records permOf)))⟩ := by
  have hlen : (permOf 42 records.length).length = records.length := by
    have h2 := hperm.length_eq
    simpa using h2
  refine ⟨?_, ?_, ?_, rfl⟩
  · unfold test_set
    rw [List.length_map, List.length_take, hlen]
    exact Nat.min_eq_left (test_count_le records.length)
  · unfold train_set
    rw [List.length_map, List.length_drop, hlen]
  · unfold test_set train_set
    rw [← List.map_append, List.take_append_drop]
    have h2 := hperm.map (fun i => records.getD i default)
    rw [map_getD_range] at h2
    exact h2

theorem C8_witness :
    ((fun _ n => List.range n) 42 sampleRecords.length : List ℕ).Perm
      (List.range sampleRecords.length) ∧
    ((test_set sampleRecords (fun _ n => List.range n)).length
        = test_count sampleRecords.length ∧
     (train_set sampleRecords (fun _ n => List.range n)).length
        = sampleRecords.length - test_count sampleRecords.length ∧
     (test_set sampleRecords (fun _ n => List.range n)
        ++ train_set sampleRecords (fun _ n => List.range n)).Perm sampleRecords ∧
     train_model sampleRecords (fun _ n => List.range n) (fun _ _ => 0) =
      ⟨Real.sqrt (mean_squared_error
          ((test_set sampleRecords (fun _ n => List.range n)).map
            (·.solar_output_efficiency))
          ((test_set sampleRecords (fun _ n => List.range n)).map
            ((fun _ _ => 0) (train_set sampleRecords (fun _ n => List.range n))))),
        mean_absolute_error
          ((test_set sampleRecords (fun _ n => List.range n)).map
            (·.solar_output_efficiency))
          ((test_set sampleRecords (fun _ n => List.range n)).map
            ((fun _ _ => 0) (train_set sampleRecords (fun _ n => List.range n)))),
        r2_score
          ((test_set sampleRecords (fun _ n => List.range n)).map
            (·.solar_output_efficiency))
          ((test_set sampleRecords (fun _ n => List.range n)).map
            ((fun _ _ => 0) (train_set sampleRecords (fun _ n => List.range n))))⟩) := by
  have hperm : ((fun _ n => List.range n) 42 sampleRecords.length : List ℕ).Perm
      (List.range sampleRecords.length) := List.Perm.refl _
  exact ⟨hperm,
    C8_split_and_metrics sampleRecords (fun _ n => List.range n) (fun _ _ => 0) hperm⟩

/-- C9: `insert_weather_data` never raises — it is a total Boolean-valued
function — and it returns `True` exactly when the underlying database
write succeeds, `False` exactly when the write fails with any exception:
the failure signal is the Boolean, not a propagated exception. -/
theorem C9_insert_never_raises (write : WeatherData → Except String Unit)
    (wd : WeatherData) :
    (insert_weather_data write wd = true ↔ write wd = Except.ok ()) ∧
    (insert_weather_data write wd = false ↔ ∃ e, write wd = Except.error e) := by
  unfold insert_weather_data
  cases hw : write wd with
  | ok u =>
    cases u
    simp
  | error e =>
    simp
